import Mathlib

/-!
# EduTube course-catalog synchronization core: shallow embedding

This file embeds the data model and the operations of the EduTube
repository's sync core in Lean and proves properties about them.

Embedded source functions (JavaScript/TypeScript → Lean):

* `CourseSchema`'s `category` getter/setter         (models/Course, mongoose schema)
* `POST /api/courses` category processing           (routes/courses.js)
* `saveToMongoDB` payload category normalization    (utils/mongoSync)
* `syncLocalStorage`'s find-index upsert            (sync-courses-global.js)
* `fetchMongoDBCourses` and its four-slot write     (sync-courses-global.js)
* `forceSync`                                       (sync-courses-global.js)
* `startAutoRefresh`'s interval ticks               (sync-courses-global.js)
* `getCourses`, `deleteCourse`                      (utils/courseUtils)
* `deleteFromMongoDB`, `fetchFromMongoDB` headers   (utils/mongoSync)

Conventions: a JavaScript value that may be `undefined` is an `Option`;
`localStorage` is a record of the four slots the source writes
(`adminCourses`, `edutube_courses`, `courses_data`, `user_courses`), each
slot being absent, unparseable, or a parsed list of course records; the
outcome of a network call is an explicit input to the embedded function;
a thrown exception is `Except.error`.  A `localStorage.setItem` call can
throw (`QuotaExceededError`); where a claim depends on that fault mode the
write sequence takes a `quotaOk` oracle saying which of the consecutive
`setItem` calls succeed.
-/

namespace EduTube

/-- A category value as it travels through the system: either a bare id
string or a JavaScript object that may carry `_id`, `id`, `name` fields
(each possibly absent). -/
structure CatObj where
  _id : Option String
  id : Option String
  name : Option String
deriving DecidableEq, Repr

/-- `category` field value: bare string or object (mongoose `Mixed`). -/
inductive CatVal where
  | str (s : String)
  | obj (o : CatObj)
deriving DecidableEq, Repr

/-- JavaScript truthiness of a possibly-absent string field:
`undefined` and `""` are falsy, every other string truthy. -/
def truthy : Option String → Bool
  | none => false
  | some s => !(s == "")

/-- The `CourseSchema.category` mongoose setter (models/Course):
`if (v && typeof v === 'object' && v._id) return v._id;`
`if (v && typeof v === 'object' && v.id) return v.id;`
`return v;` — i.e. an object is reduced to its bare id when it has one. -/
def categorySet : CatVal → CatVal
  | CatVal.obj o =>
      if truthy o._id then CatVal.str (o._id.getD "")
      else if truthy o.id then CatVal.str (o.id.getD "")
      else CatVal.obj o
  | CatVal.str s => CatVal.str s

/-- The `CourseSchema.category` mongoose getter (models/Course): both of
its branches return the stored value unchanged
(`if (v && typeof v === 'object' && v.name) return v; return v;`). -/
def categoryGet : CatVal → CatVal
  | v => v

/-- `saveToMongoDB` request payload category (utils/mongoSync):
`typeof category === 'object' ? (category._id || category.name || 'web-development') : category`. -/
def payloadCategory : CatVal → CatVal
  | CatVal.obj o =>
      if truthy o._id then CatVal.str (o._id.getD "")
      else if truthy o.name then CatVal.str (o.name.getD "")
      else CatVal.str "web-development"
  | CatVal.str s => CatVal.str s

/-- `POST /api/courses` category processing (routes/courses.js): a string
id is looked up in the Category collection (`findCategoryById` models the
lookup; `none` covers both not-found and a lookup error, in which cases the
string is used as-is); an object is reduced to `category._id || category`. -/
def routeCategoryToSave (findCategoryById : String → Option String) : CatVal → CatVal
  | CatVal.str s =>
      match findCategoryById s with
      | some catId => CatVal.str catId
      | none => CatVal.str s
  | CatVal.obj o => if truthy o._id then CatVal.str (o._id.getD "") else CatVal.obj o

/-- Category stored by the `POST /api/courses` route: the route-level
processing followed by the schema setter applied on document construction. -/
def postStoredCategory (findCategoryById : String → Option String) (v : CatVal) : CatVal :=
  categorySet (routeCategoryToSave findCategoryById v)

/-- Spec §3 storage format: the embedded pair is an object carrying both an
id (`_id` or `id`) and a `name`.  Used only to state the claim about the
storage format; the program functions above are translated from the source. -/
def isEmbeddedPair : CatVal → Bool
  | CatVal.obj o => (truthy o._id || truthy o.id) && truthy o.name
  | CatVal.str _ => false

/-- A course record as the sync core handles it.  `_id` is the
authoritative-store identity, absent (`undefined`) on client-originated
un-persisted records.  Numeric/date/module fields of the schema are carried
opaquely by every embedded operation (whole-record replacement only) and are
not needed by any property below, so they are elided. -/
structure Course where
  _id : Option String
  title : String
  description : String
  instructor : String
  thumbnail : String
  category : CatVal
  level : String
  featured : Bool
deriving DecidableEq, Repr

/-- Content of one `localStorage` slot: key absent, value that fails
`JSON.parse`, or a parsed list of records. -/
inductive SlotVal where
  | absent
  | corrupt
  | data (cs : List Course)
deriving DecidableEq, Repr

/-- The four redundant Local Mirror slots the source writes. -/
structure LocalStore where
  adminCourses : SlotVal
  edutube_courses : SlotVal
  courses_data : SlotVal
  user_courses : SlotVal
deriving DecidableEq, Repr

/-- Outcome of the remote `GET /api/courses` listing: a parsed array on a
2xx response, or failure (network error, non-ok status, JSON error). -/
inductive RemoteList where
  | ok (cs : List Course)
  | fail
deriving DecidableEq, Repr

/-- Sample record used to instantiate theorems at concrete inputs. -/
def sampleCourse (id : Option String) (title : String) : Course :=
  { _id := id, title := title, description := "d", instructor := "i",
    thumbnail := "u", category := CatVal.str "web-development",
    level := "beginner", featured := false }

/-- The four consecutive `localStorage.setItem` calls of
`fetchMongoDBCourses` (sync-courses-global.js, in source order
`adminCourses`, `edutube_courses`, `courses_data`, `user_courses`).
`quotaOk k` says whether the k-th `setItem` call succeeds; a throwing call
leaves its slot and all later slots unwritten — the source has no rollback,
so the slots already written stay written.  Returns the resulting store and
whether all four writes completed. -/
def writeSlotsSyncGlobal (cs : List Course) (quotaOk : Nat → Bool) (s : LocalStore) :
    LocalStore × Bool :=
  if quotaOk 0 then
    let s0 := { s with adminCourses := SlotVal.data cs }
    if quotaOk 1 then
      let s1 := { s0 with edutube_courses := SlotVal.data cs }
      if quotaOk 2 then
        let s2 := { s1 with courses_data := SlotVal.data cs }
        if quotaOk 3 then ({ s2 with user_courses := SlotVal.data cs }, true)
        else (s2, false)
      else (s1, false)
    else (s0, false)
  else (s, false)

/-- The four consecutive `localStorage.setItem` calls of `getCourses` /
`saveCourse` (utils/courseUtils, in source order `edutube_courses`,
`adminCourses`, `courses_data`, `user_courses`). -/
def writeSlotsCourseUtils (cs : List Course) (quotaOk : Nat → Bool) (s : LocalStore) :
    LocalStore × Bool :=
  if quotaOk 0 then
    let s0 := { s with edutube_courses := SlotVal.data cs }
    if quotaOk 1 then
      let s1 := { s0 with adminCourses := SlotVal.data cs }
      if quotaOk 2 then
        let s2 := { s1 with courses_data := SlotVal.data cs }
        if quotaOk 3 then ({ s2 with user_courses := SlotVal.data cs }, true)
        else (s2, false)
      else (s1, false)
    else (s0, false)
  else (s, false)

/-- `fetchMongoDBCourses` (sync-courses-global.js): on a successful listing
it overwrites all four slots with the remote array and returns that array;
its `catch` swallows every failure — a failed fetch, a non-ok status, or a
throwing `setItem` — and returns `[]`, leaving whatever slots were already
written in place. -/
def fetchMongoDBCourses (r : RemoteList) (quotaOk : Nat → Bool) (s : LocalStore) :
    LocalStore × List Course :=
  match r with
  | RemoteList.fail => (s, [])
  | RemoteList.ok cs =>
      let res := writeSlotsSyncGlobal cs quotaOk s
      if res.2 then (res.1, cs) else (res.1, [])

/-- The `localStorage` read in `getCourses` (utils/courseUtils): read the
`edutube_courses` key; an absent key or a `JSON.parse` failure yields `[]`. -/
def readLocalCourses (s : LocalStore) : List Course :=
  match s.edutube_courses with
  | SlotVal.data cs => cs
  | SlotVal.absent => []
  | SlotVal.corrupt => []

/-- `getCourses` (utils/courseUtils): with `forceRefresh` it fetches the
remote listing; a non-empty result is written into all four slots and
returned; an empty result, a fetch failure, or a throwing `setItem` falls
through (inner `catch`) to the `localStorage` read. -/
def getCourses (forceRefresh : Bool) (r : RemoteList) (quotaOk : Nat → Bool) (s : LocalStore) :
    LocalStore × List Course :=
  if forceRefresh then
    match r with
    | RemoteList.ok cs =>
        if cs.length > 0 then
          let res := writeSlotsCourseUtils cs quotaOk s
          if res.2 then (res.1, cs) else (res.1, readLocalCourses res.1)
        else (s, readLocalCourses s)
    | RemoteList.fail => (s, readLocalCourses s)
  else (s, readLocalCourses s)

/-- The `await fetchMongoDBCourses(true)` call inside `forceSync`
(sync-courses-global.js): `fetchMongoDBCourses` handles every failure
internally (total function), so the call never throws — its result is
always `Except.ok`. -/
def forceSyncFetchCall (r : RemoteList) (quotaOk : Nat → Bool) (s : LocalStore) :
    Except String (LocalStore × List Course) :=
  Except.ok (fetchMongoDBCourses r quotaOk s)

/-- `forceSync` (sync-courses-global.js): returns the fetched count when
positive, `0` when the fetched array is empty, and `-1` from its `catch`
arm should the fetch call throw. -/
def forceSync (r : RemoteList) (quotaOk : Nat → Bool) (s : LocalStore) : LocalStore × Int :=
  match forceSyncFetchCall r quotaOk s with
  | Except.error _ => (s, -1)
  | Except.ok (s2, cs) => (s2, if cs.length > 0 then (cs.length : Int) else 0)

/-- Outcome of the remote `DELETE /api/courses/:id` call. -/
inductive DeleteRemote where
  | success
  | notFound
  | serverError
deriving DecidableEq, Repr

/-- `deleteFromMongoDB` (utils/mongoSync): throws without a token; throws on
every non-ok response — `if (!response.ok) throw`, which includes a 404. -/
def deleteFromMongoDB (token : Option String) (r : DeleteRemote) : Except String Bool :=
  match token with
  | none => Except.error "Authentication required to delete courses"
  | some _ =>
      match r with
      | DeleteRemote.success => Except.ok true
      | DeleteRemote.notFound => Except.error "Failed to delete course: 404"
      | DeleteRemote.serverError => Except.error "Failed to delete course: 500"

/-- `deleteCourse` (utils/courseUtils): first `await deleteFromMongoDB`;
a throw there is re-thrown by the outer `catch` with no local change.  After
remote success the `edutube_courses` slot is parsed, records whose `_id`
strict-equals the id are filtered out, and the result is written to all four
slots; an absent key skips the local removal and a parse failure is caught
and logged — both still return `true`. -/
def deleteCourse (courseId : String) (token : Option String) (r : DeleteRemote)
    (s : LocalStore) : LocalStore × Except String Bool :=
  match deleteFromMongoDB token r with
  | Except.error e => (s, Except.error e)
  | Except.ok _ =>
      match s.edutube_courses with
      | SlotVal.data courses =>
          let updatedCourses := courses.filter (fun course => !(course._id == some courseId))
          ({ adminCourses := SlotVal.data updatedCourses
             edutube_courses := SlotVal.data updatedCourses
             courses_data := SlotVal.data updatedCourses
             user_courses := SlotVal.data updatedCourses }, Except.ok true)
      | SlotVal.absent => (s, Except.ok true)
      | SlotVal.corrupt => (s, Except.ok true)

/-- The upsert step of `syncLocalStorage` (sync-courses-global.js), the
Local Mirror `upsertOne`:
`const i = cs.findIndex(c => c._id === course._id);`
`if (i >= 0) cs[i] = course; else cs.push(course);`
JavaScript `undefined === undefined` is true, which `Option.beq` mirrors
(`none == none` is `true`). -/
def upsertOne (course : Course) (cs : List Course) : List Course :=
  match cs.findIdx? (fun c => c._id == course._id) with
  | some i => cs.set i course
  | none => cs ++ [course]

/-- The upsert step of `saveCourse` (utils/courseUtils):
`const exists = cs.some(c => c._id === u._id);`
`if (!exists) cs.push(u); else cs = cs.map(c => c._id === u._id ? u : c);` -/
def saveCourseUpsert (updatedCourse : Course) (cs : List Course) : List Course :=
  if cs.any (fun c => c._id == updatedCourse._id) then
    cs.map (fun c => if c._id == updatedCourse._id then updatedCourse else c)
  else cs ++ [updatedCourse]

/-- Start times of the fetches begun by `startAutoRefresh`
(sync-courses-global.js) during its first `n` schedule points: the source's
`setInterval` callback invokes `fetchMongoDBCourses(true)` unconditionally —
the only poller state is the `refreshInterval` timer handle, there is no
in-flight guard — so a fetch starts at every multiple of the interval
(time 0 standing for the initial fetch issued right before the interval is
installed). -/
def fetchStartTimes (intervalMs n : Nat) : List Nat :=
  (List.range n).map (fun i => i * intervalMs)

/-- Number of `fetchMongoDBCourses` calls in flight at instant `t`, when
each call takes `latency` ms: the calls started at `s ≤ t` that have not yet
completed (`t < s + latency`). -/
def inFlightAt (intervalMs latency t n : Nat) : Nat :=
  ((fetchStartTimes intervalMs n).filter
    (fun s0 => decide (s0 ≤ t ∧ t < s0 + latency))).length

/-- Headers of one HTTP request, as the source builds them. -/
structure ReqHeaders where
  cacheControl : Option String
  pragmaHdr : Option String
  expires : Option String
  contentType : Option String
  authorization : Option String
deriving DecidableEq, Repr

/-- Headers of the `fetch` in `fetchMongoDBCourses` (sync-courses-global.js). -/
def fetchMongoDBCoursesHeaders : ReqHeaders :=
  { cacheControl := some "no-cache, no-store, must-revalidate"
    pragmaHdr := some "no-cache"
    expires := some "0"
    contentType := none
    authorization := none }

/-- Headers of the `fetch` in `loadCourses` (CoursesPage polling effect). -/
def coursesPageFetchHeaders : ReqHeaders :=
  { cacheControl := some "no-cache, no-store, must-revalidate"
    pragmaHdr := some "no-cache"
    expires := some "0"
    contentType := none
    authorization := none }

/-- Headers of the `fetch` in `fetchFromMongoDB` (utils/mongoSync): only
`Content-Type` plus `Authorization` when a token is present. -/
def fetchFromMongoDBHeaders (token : Option String) : ReqHeaders :=
  { cacheControl := none
    pragmaHdr := none
    expires := none
    contentType := some "application/json"
    authorization := token.map (fun t => "Bearer " ++ t) }

/-- Split a header value at commas, accumulating the current directive. -/
def splitDirectivesAux : List Char → List Char → List (List Char)
  | [], acc => [acc.reverse]
  | c :: rest, acc =>
      if c == ',' then acc.reverse :: splitDirectivesAux rest []
      else splitDirectivesAux rest (c :: acc)

/-- The directives of a comma-separated header value, leading spaces
stripped (HTTP list-header syntax). -/
def splitDirectives (v : String) : List String :=
  (splitDirectivesAux v.toList []).map
    (fun l => (l.dropWhile (fun c => c == ' ')).asString)

/-- The directives of a request's `Cache-Control` header. -/
def cacheControlDirectives (h : ReqHeaders) : List String :=
  match h.cacheControl with
  | some v => splitDirectives v
  | none => []

/-- Whether a request carries the `no-store` cache-defeating directive. -/
def hasNoStoreDirective (h : ReqHeaders) : Bool :=
  (cacheControlDirectives h).contains "no-store"

/-- Concrete record with id `"x"` used to instantiate theorems. -/
def cX : Course := sampleCourse (some "x") "X"

/-- Concrete record with id `"y"` used to instantiate theorems. -/
def cY : Course := sampleCourse (some "y") "Y"

/-- Concrete record with id `"a"` used to instantiate theorems. -/
def cA : Course := sampleCourse (some "a") "A"

/-- Concrete record with id `"b"` used to instantiate theorems. -/
def cB : Course := sampleCourse (some "b") "B"

/-- Concrete Local Mirror whose four slots each hold `[cX, cY]`. -/
def storeXY : LocalStore :=
  ⟨SlotVal.data [cX, cY], SlotVal.data [cX, cY], SlotVal.data [cX, cY], SlotVal.data [cX, cY]⟩

/-! ## Helper lemmas about the Local Mirror upsert -/

theorem upsertOne_cons_pos (c a : Course) (l : List Course)
    (h : (a._id == c._id) = true) : upsertOne c (a :: l) = c :: l := by
  simp [upsertOne, List.findIdx?_cons, h]

theorem upsertOne_cons_neg (c a : Course) (l : List Course)
    (h : (a._id == c._id) = false) : upsertOne c (a :: l) = a :: upsertOne c l := by
  unfold upsertOne
  rw [List.findIdx?_cons, h]
  simp only [Bool.false_eq_true, if_false]
  rw [show (1 : Nat) = 0 + 1 from rfl, List.findIdx?_succ]
  cases hfi : List.findIdx? (fun c0 => c0._id == c._id) l with
  | none => simp
  | some i => simp

theorem upsertOne_append_of_no_match (c : Course) (l : List Course)
    (h : ∀ a ∈ l, (a._id == c._id) = false) : upsertOne c l = l ++ [c] := by
  unfold upsertOne
  rw [List.findIdx?_eq_none_iff.mpr h]

theorem upsertOne_length_of_match (c : Course) (l : List Course)
    (h : ∃ a ∈ l, (a._id == c._id) = true) : (upsertOne c l).length = l.length := by
  unfold upsertOne
  cases hfi : List.findIdx? (fun c0 => c0._id == c._id) l with
  | some i => simp
  | none =>
      exfalso
      rw [List.findIdx?_eq_none_iff] at hfi
      obtain ⟨a, ha, hpa⟩ := h
      rw [hfi a ha] at hpa
      exact Bool.false_ne_true hpa

/-- After an upsert into a mirror that held at most one record with the
incoming identity, the records with that identity are exactly the incoming
record. -/
theorem upsertOne_filter_eq (c : Course) (l : List Course)
    (h : (l.filter (fun a => a._id == c._id)).length ≤ 1) :
    (upsertOne c l).filter (fun a => a._id == c._id) = [c] := by
  induction l with
  | nil => simp [upsertOne, List.findIdx?]
  | cons a t ih =>
      cases ha : (a._id == c._id) with
      | true =>
          rw [upsertOne_cons_pos c a t ha]
          have ht : t.filter (fun a => a._id == c._id) = [] := by
            rw [List.filter_cons_of_pos (by simpa using ha)] at h
            simp only [List.length_cons] at h
            exact List.eq_nil_of_length_eq_zero (by omega)
          simp [List.filter_cons, ht]
      | false =>
          rw [upsertOne_cons_neg c a t ha]
          rw [List.filter_cons_of_neg (by simp [ha])]
          rw [List.filter_cons_of_neg (by simp [ha])] at h
          exact ih h

/-! ## Claim theorems -/

/-- C1 counterexample: `deleteCourse` of an id the remote no longer has
(remote answers 404) yields an error — `deleteFromMongoDB` throws on every
non-ok response including 404 and `deleteCourse` re-throws — and no local
removal happens, refuting the claim that a 404 is treated as
already-deleted and that `removeOne` is applied regardless of remote
failure. -/
theorem deleteCourse_notFound_errors_cex :
    deleteCourse "x" (some "tok") DeleteRemote.notFound storeXY
      = (storeXY, Except.error "Failed to delete course: 404") := rfl

/-- C1 (amended): `deleteCourse` is remote-confirmed, not optimistic: a
remote 404 (or any failure) makes it throw with the Local Mirror left
untouched; only after remote success does it filter the id out of the
parsed slot and write the result to all four slots, after which no record
with that id remains; a second delete of the already-deleted id therefore
errors (while the mirror, already purged by the first call, stays purged). -/
theorem deleteCourse_remote_confirmed (courseId tok : String) (s : LocalStore)
    (cs : List Course) (hs : s.edutube_courses = SlotVal.data cs) :
    (∀ s2 : LocalStore, deleteCourse courseId (some tok) DeleteRemote.notFound s2
        = (s2, Except.error "Failed to delete course: 404")) ∧
    (deleteCourse courseId (some tok) DeleteRemote.success s
        = (⟨SlotVal.data (cs.filter (fun course => !(course._id == some courseId))),
            SlotVal.data (cs.filter (fun course => !(course._id == some courseId))),
            SlotVal.data (cs.filter (fun course => !(course._id == some courseId))),
            SlotVal.data (cs.filter (fun course => !(course._id == some courseId)))⟩,
           Except.ok true)) ∧
    (∀ c ∈ cs.filter (fun course => !(course._id == some courseId)), ¬ c._id = some courseId) := by
  refine ⟨fun s2 => rfl, ?_, ?_⟩
  · simp [deleteCourse, deleteFromMongoDB, hs]
  · intro c hc
    have h := List.of_mem_filter hc
    simpa using h

/-- C1 witness: the amended theorem at a concrete mirror holding records
with ids `"x"` and `"y"`. -/
theorem deleteCourse_remote_confirmed_witness :
    (∀ s2 : LocalStore, deleteCourse "x" (some "tok") DeleteRemote.notFound s2
        = (s2, Except.error "Failed to delete course: 404")) ∧
    (deleteCourse "x" (some "tok") DeleteRemote.success storeXY
        = (⟨SlotVal.data ([cX, cY].filter (fun course => !(course._id == some "x"))),
            SlotVal.data ([cX, cY].filter (fun course => !(course._id == some "x"))),
            SlotVal.data ([cX, cY].filter (fun course => !(course._id == some "x"))),
            SlotVal.data ([cX, cY].filter (fun course => !(course._id == some "x")))⟩,
           Except.ok true)) ∧
    (∀ c ∈ [cX, cY].filter (fun course => !(course._id == some "x")), ¬ c._id = some "x") :=
  deleteCourse_remote_confirmed "x" "tok" storeXY [cX, cY] rfl

/-- C2 counterexample: with a non-empty mirror, a failed listing makes
`fetchMongoDBCourses` return the empty array — not the previous local
snapshot, which is `[cX, cY]` — refuting the returned-value half of the
claim (the frame half holds: the store is unchanged). -/
theorem fetchMongoDBCourses_fail_empty_cex :
    fetchMongoDBCourses RemoteList.fail (fun _ => true) storeXY = (storeXY, []) ∧
    readLocalCourses storeXY = [cX, cY] ∧ ([] : List Course) ≠ [cX, cY] :=
  ⟨rfl, rfl, by decide⟩

/-- C2 (amended): when the remote listing fails, both pull paths leave
every Local Mirror slot unchanged; `getCourses` falls back to returning the
previous local snapshot, while `fetchMongoDBCourses` — the function the
Poller invokes — returns the empty array instead of that snapshot. -/
theorem pullAndMerge_failure_frame (quotaOk : Nat → Bool) (s : LocalStore) :
    fetchMongoDBCourses RemoteList.fail quotaOk s = (s, []) ∧
    getCourses true RemoteList.fail quotaOk s = (s, readLocalCourses s) :=
  ⟨rfl, rfl⟩

/-- C3 counterexample: a quota failure on the third of the four consecutive
`setItem` calls leaves the first two slots holding the new list and the last
two holding the old one — the operation is reported failed (returns `[]`)
yet slots were partially applied and the four slots differ, refuting
atomicity. -/
theorem writeAll_partial_apply_cex :
    fetchMongoDBCourses (RemoteList.ok [cA, cB]) (fun k => decide (k < 2)) storeXY
      = (⟨SlotVal.data [cA, cB], SlotVal.data [cA, cB],
          SlotVal.data [cX, cY], SlotVal.data [cX, cY]⟩, []) ∧
    SlotVal.data [cA, cB] ≠ SlotVal.data [cX, cY] :=
  ⟨rfl, by decide⟩

/-- C3 (amended): the four-slot replace is sequential with no rollback:
when every `setItem` succeeds all four slots end up holding the identical
written list, but a failure partway (here on the third call) leaves the
slots already written replaced and the remaining slots unchanged — failed,
logged, and partially applied rather than atomic. -/
theorem writeAll_sequential (cs : List Course) (quotaOk : Nat → Bool) (s : LocalStore)
    (hall : ∀ k, quotaOk k = true) :
    writeSlotsSyncGlobal cs quotaOk s
      = (⟨SlotVal.data cs, SlotVal.data cs, SlotVal.data cs, SlotVal.data cs⟩, true) ∧
    fetchMongoDBCourses (RemoteList.ok cs) quotaOk s
      = (⟨SlotVal.data cs, SlotVal.data cs, SlotVal.data cs, SlotVal.data cs⟩, cs) ∧
    writeSlotsSyncGlobal cs (fun k => decide (k < 2)) s
      = ({ s with adminCourses := SlotVal.data cs, edutube_courses := SlotVal.data cs }, false) := by
  have h1 : writeSlotsSyncGlobal cs quotaOk s
      = (⟨SlotVal.data cs, SlotVal.data cs, SlotVal.data cs, SlotVal.data cs⟩, true) := by
    simp [writeSlotsSyncGlobal, hall]
  refine ⟨h1, ?_, ?_⟩
  · simp [fetchMongoDBCourses, h1]
  · simp [writeSlotsSyncGlobal]

/-- C3 witness: the amended theorem at a concrete list and store. -/
theorem writeAll_sequential_witness :
    (writeSlotsSyncGlobal [cA] (fun _ => true) storeXY
      = (⟨SlotVal.data [cA], SlotVal.data [cA], SlotVal.data [cA], SlotVal.data [cA]⟩, true)) ∧
    (fetchMongoDBCourses (RemoteList.ok [cA]) (fun _ => true) storeXY
      = (⟨SlotVal.data [cA], SlotVal.data [cA], SlotVal.data [cA], SlotVal.data [cA]⟩, [cA])) ∧
    (writeSlotsSyncGlobal [cA] (fun k => decide (k < 2)) storeXY
      = ({ storeXY with
            adminCourses := SlotVal.data [cA]
            edutube_courses := SlotVal.data [cA] }, false)) :=
  writeAll_sequential [cA] (fun _ => true) storeXY (fun _ => rfl)

/-- C4 counterexample: with a 1000 ms interval and 2500 ms fetch latency,
three reconciliations are in flight at t = 2000 ms — the `setInterval`
callback starts a fetch unconditionally, so ticks are neither skipped nor
serialized, refuting "at most one in-flight reconciliation at any
instant". -/
theorem poller_overlap_cex :
    inFlightAt 1000 2500 2000 3 = 3 ∧ 1 < inFlightAt 1000 2500 2000 3 :=
  ⟨by decide, by decide⟩

/-- C4 (amended): the Poller overlaps ticks: whenever one
`fetchMongoDBCourses` takes longer than the interval, at the first interval
tick at least two reconciliations are in flight simultaneously (the tick is
run concurrently, not skipped). -/
theorem poller_overlaps (intervalMs latency : Nat) (h0 : 0 < intervalMs)
    (h : intervalMs < latency) : 2 ≤ inFlightAt intervalMs latency intervalMs 2 := by
  have hst : fetchStartTimes intervalMs 2 = [0, intervalMs] := by
    simp [fetchStartTimes, List.range_succ]
  have c1 : decide (0 ≤ intervalMs ∧ intervalMs < 0 + latency) = true := by
    simp only [decide_eq_true_eq]
    omega
  have c2 : decide (intervalMs ≤ intervalMs ∧ intervalMs < intervalMs + latency) = true := by
    simp only [decide_eq_true_eq]
    omega
  have hl0 : 0 < latency := by omega
  unfold inFlightAt
  rw [hst]
  simp [List.filter_cons, c1, c2, h, hl0]

/-- C4 witness: the amended theorem at the default 1000 ms interval and a
2500 ms latency. -/
theorem poller_overlaps_witness : 2 ≤ inFlightAt 1000 2500 1000 2 :=
  poller_overlaps 1000 2500 (by decide) (by decide)

/-- C5: `upsertOne` matches solely by record identity: in a mirror holding
at most one record with the incoming identity, a record with no identity
match is appended (whatever its other fields), a record with an identity
match replaces in place without changing the mirror's length, and upserting
`{id: "x", title: "T1"}` then `{id: "x", title: "T2"}` leaves exactly one
record with that id, carrying title `"T2"`. -/
theorem upsertOne_identity_matching (l : List Course) (c1 c2 : Course)
    (hid : c1._id = c2._id)
    (huniq : (l.filter (fun a => a._id == c1._id)).length ≤ 1) :
    ((∀ a ∈ l, (a._id == c1._id) = false) → upsertOne c1 l = l ++ [c1]) ∧
    ((∃ a ∈ l, (a._id == c1._id) = true) → (upsertOne c1 l).length = l.length) ∧
    (upsertOne c2 (upsertOne c1 l)).filter (fun a => a._id == c2._id) = [c2] := by
  refine ⟨upsertOne_append_of_no_match c1 l, upsertOne_length_of_match c1 l, ?_⟩
  apply upsertOne_filter_eq
  have h1 := upsertOne_filter_eq c1 l huniq
  simp only [← hid]
  rw [h1]
  simp

/-- C5 witness: the double upsert of the claim's concrete scenario, started
from the empty mirror. -/
theorem upsertOne_identity_matching_witness :
    ((∀ a ∈ ([] : List Course), (a._id == (sampleCourse (some "x") "T1")._id) = false) →
        upsertOne (sampleCourse (some "x") "T1") [] = [] ++ [sampleCourse (some "x") "T1"]) ∧
    ((∃ a ∈ ([] : List Course), (a._id == (sampleCourse (some "x") "T1")._id) = true) →
        (upsertOne (sampleCourse (some "x") "T1") []).length = ([] : List Course).length) ∧
    (upsertOne (sampleCourse (some "x") "T2")
        (upsertOne (sampleCourse (some "x") "T1") [])).filter
      (fun a => a._id == (sampleCourse (some "x") "T2")._id) = [sampleCourse (some "x") "T2"] :=
  upsertOne_identity_matching [] (sampleCourse (some "x") "T1") (sampleCourse (some "x") "T2")
    rfl (by decide)

/-- C6 counterexample: writing an embedded pair `{_id: "c1", name: "Web"}`
through the POST route (and the client payload path) stores the bare id
string `"c1"`, which is not the embedded pair — the code normalizes toward
the bare id at write time, the opposite of the claim. -/
theorem category_stored_bare_cex :
    postStoredCategory (fun _ => none)
        (CatVal.obj { _id := some "c1", id := none, name := some "Web" }) = CatVal.str "c1" ∧
    isEmbeddedPair (CatVal.str "c1") = false ∧
    payloadCategory (CatVal.obj { _id := some "c1", id := none, name := some "Web" })
      = CatVal.str "c1" :=
  ⟨rfl, rfl, rfl⟩

/-- C6 (amended): the write path normalizes category to the bare id, never
to the embedded pair: nothing stored through the POST route is an embedded
pair (the schema setter strips an object down to its id), and an embedded
pair supplied at write time is reduced to its bare `_id` by both the schema
setter and the `saveToMongoDB` payload; the embedded pair the clients read
is reconstituted at read time by the routes' populate step, not by the
storage format. -/
theorem category_write_normalizes_to_bare_id (f : String → Option String) (v : CatVal)
    (o : CatObj) (hid : truthy o._id = true) :
    isEmbeddedPair (postStoredCategory f v) = false ∧
    categorySet (CatVal.obj o) = CatVal.str (o._id.getD "") ∧
    payloadCategory (CatVal.obj o) = CatVal.str (o._id.getD "") := by
  refine ⟨?_, ?_, ?_⟩
  · cases v with
    | str s =>
        unfold postStoredCategory routeCategoryToSave
        cases hf : f s <;> simp [hf, categorySet, isEmbeddedPair]
    | obj o2 =>
        unfold postStoredCategory routeCategoryToSave
        cases h1 : truthy o2._id with
        | true => simp [h1, categorySet, isEmbeddedPair]
        | false =>
            simp only [h1, Bool.false_eq_true, if_false]
            cases h2 : truthy o2.id with
            | true => simp [categorySet, h1, h2, isEmbeddedPair]
            | false => simp [categorySet, h1, h2, isEmbeddedPair]
  · simp [categorySet, hid]
  · simp [payloadCategory, hid]

/-- C6 witness: the amended theorem at concrete embedded pairs. -/
theorem category_write_normalizes_to_bare_id_witness :
    isEmbeddedPair (postStoredCategory (fun _ => none)
        (CatVal.obj { _id := some "c1", id := none, name := some "Web" })) = false ∧
    categorySet (CatVal.obj { _id := some "c9", id := none, name := some "Data" })
      = CatVal.str ((some "c9").getD "") ∧
    payloadCategory (CatVal.obj { _id := some "c9", id := none, name := some "Data" })
      = CatVal.str ((some "c9").getD "") :=
  category_write_normalizes_to_bare_id (fun _ => none)
    (CatVal.obj { _id := some "c1", id := none, name := some "Web" })
    { _id := some "c9", id := none, name := some "Data" } (by decide)

/-- C7 counterexample: the listing request built by `fetchFromMongoDB` — a
list() request of the sync core, the one `getCourses` uses — carries no
`Cache-Control` header at all, hence no `no-store` directive, refuting
"every list() request issued by the sync core carries no-store". -/
theorem fetchFromMongoDB_no_cache_cex :
    hasNoStoreDirective (fetchFromMongoDBHeaders (some "tok")) = false ∧
    cacheControlDirectives (fetchFromMongoDBHeaders (some "tok")) = [] :=
  ⟨rfl, rfl⟩

/-- C7 (amended): the poll-tick listing requests (`fetchMongoDBCourses` and
the CoursesPage loader) do carry the `no-store` directive, but the
`fetchFromMongoDB` listing path sends no cache-defeating directives for any
token. -/
theorem list_request_cache_directives :
    hasNoStoreDirective fetchMongoDBCoursesHeaders = true ∧
    hasNoStoreDirective coursesPageFetchHeaders = true ∧
    ∀ token, hasNoStoreDirective (fetchFromMongoDBHeaders token) = false :=
  ⟨by decide, by decide, fun token => rfl⟩

/-- C8: a forced `getCourses` whose remote fetch succeeds with the empty
list leaves every Local Mirror slot unchanged and returns the previous
local snapshot — the empty remote state is never written locally, so a
remote deletion of the last record cannot converge through this read
path. -/
theorem getCourses_empty_remote_frame (quotaOk : Nat → Bool) (s : LocalStore) :
    getCourses true (RemoteList.ok []) quotaOk s = (s, readLocalCourses s) := rfl

/-- C9: `forceSync` never returns its error sentinel −1: the fetch call it
guards is total (every failure is swallowed inside `fetchMongoDBCourses`,
which returns the empty array instead of throwing), so its catch arm is
unreachable; a remote failure is reported as 0, the same value as a
genuinely empty remote catalog. -/
theorem forceSync_never_error_sentinel :
    (∀ (r : RemoteList) (quotaOk : Nat → Bool) (s : LocalStore),
        (forceSync r quotaOk s).2 ≠ -1) ∧
    (∀ (quotaOk : Nat → Bool) (s : LocalStore),
        (forceSync RemoteList.fail quotaOk s).2 = 0) ∧
    (∀ (quotaOk : Nat → Bool) (s : LocalStore),
        (forceSync (RemoteList.ok []) quotaOk s).2 = 0) := by
  refine ⟨?_, ?_, ?_⟩
  · intro r q s
    unfold forceSync forceSyncFetchCall
    rcases hfc : fetchMongoDBCourses r q s with ⟨s2, cs⟩
    show (if cs.length > 0 then ((cs.length : Int)) else 0) ≠ -1
    split <;> omega
  · intro q s
    rfl
  · intro q s
    unfold forceSync forceSyncFetchCall fetchMongoDBCourses
    cases hw : (writeSlotsSyncGlobal [] q s).2 <;> simp [hw]

/-- C10: upserting a record lacking an identity into a mirror that already
holds a pending (id-less) record matches on the absent ids
(`undefined === undefined`), so the new pending record replaces the
existing one instead of being appended — the mirror keeps a single id-less
record and the second un-persisted record silently overwrites the first. -/
theorem upsertOne_pending_overwrite (l : List Course) (c : Course)
    (hc : c._id = none)
    (hl : (l.filter (fun a => a._id == none)).length ≤ 1) :
    ((∃ a ∈ l, a._id = none) → (upsertOne c l).length = l.length) ∧
    (upsertOne c l).filter (fun a => a._id == none) = [c] := by
  constructor
  · intro h
    obtain ⟨a, ha, hida⟩ := h
    apply upsertOne_length_of_match
    refine ⟨a, ha, ?_⟩
    rw [hida, hc]
    rfl
  · have h2 := upsertOne_filter_eq c l (by simpa [hc] using hl)
    simpa [hc] using h2

/-- C10 witness: a second pending record overwrites the first pending
record in place. -/
theorem upsertOne_pending_overwrite_witness :
    ((∃ a ∈ [sampleCourse none "First"], a._id = none) →
        (upsertOne (sampleCourse none "Second") [sampleCourse none "First"]).length
          = [sampleCourse none "First"].length) ∧
    (upsertOne (sampleCourse none "Second") [sampleCourse none "First"]).filter
        (fun a => a._id == none) = [sampleCourse none "Second"] :=
  upsertOne_pending_overwrite [sampleCourse none "First"] (sampleCourse none "Second")
    rfl (by decide)

end EduTube
